import Mathlib

/-!
Shallow embedding of the rcssa-match-backend core (src/server.js and
src/models/User.js): the registrant store, the POST /api/users handler
(registerAndMatch), the GET /api/users/:id/match handler (queryMatch) and
the findMatch allocation routine, together with theorems settling the
specification's claims about them.

The MongoDB collection is embedded as a list of registrant records in
document order; `findOne`/`findById` return the first record satisfying
the query, `findByIdAndUpdate` and `save` map over the list updating the
record with the given id.  Machine `ObjectId`s are `Nat`.
-/

namespace RcssaMatch

/-- A registrant record, after src/models/User.js (`userSchema`). -/
structure Registrant where
  id : Nat
  name : String
  email : String
  netId : String
  major : String
  graduationYear : Int
  isMatched : Bool
  matchedWith : Option Nat
  deriving DecidableEq, Repr

/-- The store: the MongoDB `users` collection in document order. -/
abbrev Store := List Registrant

/-- The partner summary `{name, email, major, graduationYear}` built by both
handlers from a matched partner record. -/
structure Summary where
  name : String
  email : String
  major : String
  graduationYear : Int
  deriving DecidableEq, Repr

/-- Build the partner summary, as in the response literals of server.js. -/
def summaryOf (r : Registrant) : Summary :=
  ⟨r.name, r.email, r.major, r.graduationYear⟩

/-- `User.findById(id)`: first record whose `_id` equals `id`. -/
def findById (s : Store) (i : Nat) : Option Registrant :=
  s.find? (fun r => r.id = i)

/-- `User.findById(x)` where `x` is a possibly-null stored reference
(mongoose returns null on a null argument without throwing). -/
def findByIdOpt (s : Store) (o : Option Nat) : Option Registrant :=
  o.bind (fun i => findById s i)

/-- `User.findOne({email: e})` where `e` is `req.body.email`.  When the
request body omits `email`, mongoose strips the undefined value and the
query degenerates to `findOne({})`, the first document. -/
def findOneByEmailQ (s : Store) (e : Option String) : Option Registrant :=
  match e with
  | some v => s.find? (fun r => r.email = v)
  | none => s.head?

/-- `User.findByIdAndUpdate(i, {isMatched: true, matchedWith: w})` from
`findMatch`: update the record with id `i`. -/
def findByIdAndUpdateMatch (s : Store) (i : Nat) (w : Option Nat) : Store :=
  s.map (fun r => if r.id = i then { r with isMatched := true, matchedWith := w } else r)

/-- `user.save()` after mutating the in-memory document `u`: persist the
whole document over the record with the same id. -/
def saveUser (s : Store) (u : Registrant) : Store :=
  s.map (fun r => if r.id = u.id then u else r)

/-- First query of `findMatch`: `User.findOne({_id: {$ne: user._id}, major:
user.major, isMatched: false})`. -/
def sameMajorQuery (s : Store) (u : Registrant) : Option Registrant :=
  s.find? (fun c => c.id ≠ u.id ∧ c.major = u.major ∧ c.isMatched = false)

/-- Fallback query of `findMatch`: `User.findOne({_id: {$ne: user._id},
isMatched: false})`. -/
def anyUnmatchedQuery (s : Store) (u : Registrant) : Option Registrant :=
  s.find? (fun c => c.id ≠ u.id ∧ c.isMatched = false)

/-- Candidate selection of `findMatch`: same-major first, then any
unmatched non-self registrant. -/
def selectCandidate (s : Store) (u : Registrant) : Option Registrant :=
  match sameMajorQuery s u with
  | some m => some m
  | none => anyUnmatchedQuery s u

/-- The two-write commit of `findMatch`: `findByIdAndUpdate(user._id, ...)`
then `findByIdAndUpdate(match._id, ...)`. -/
def commitPair (s : Store) (u m : Registrant) : Store :=
  findByIdAndUpdateMatch (findByIdAndUpdateMatch s u.id (some m.id)) m.id (some u.id)

/-- `findMatch(user)` from server.js, run against store `s`.  `storageOk =
false` models any store operation inside the `try` block throwing before a
write happened: the `catch` swallows the error and returns null, leaving
the store untouched.  Returns the selected partner (the pre-commit record,
as the source returns `match`) and the store after the commit. -/
def findMatch (s : Store) (u : Registrant) (storageOk : Bool) :
    Option Registrant × Store :=
  if storageOk then
    match selectCandidate s u with
    | some m => (some m, commitPair s u m)
    | none => (none, s)
  else (none, s)

/-- The request body of `POST /api/users`: each schema field possibly
absent. -/
structure Fields where
  name : Option String
  email : Option String
  netId : Option String
  major : Option String
  graduationYear : Option Int
  deriving DecidableEq, Repr

/-- Mongoose `required: true` check for a String path: fails when the
value is absent or the empty string. -/
def strPresent (o : Option String) : Bool :=
  match o with
  | some v => v ≠ ""
  | none => false

/-- `newUser.validateSync()`: the paths of `userSchema` whose `required`
validator fails, in schema order. -/
def violatedFields (b : Fields) : List String :=
  (if strPresent b.name then [] else ["name"]) ++
  (if strPresent b.email then [] else ["email"]) ++
  (if strPresent b.netId then [] else ["netId"]) ++
  (if strPresent b.major then [] else ["major"]) ++
  (if b.graduationYear.isSome then [] else ["graduationYear"])

/-- `new User(req.body)` given a fresh ObjectId: `isMatched` defaults to
false, `matchedWith` to null. -/
def mkRegistrant (fresh : Nat) (b : Fields) : Registrant :=
  { id := fresh
    name := b.name.getD ""
    email := b.email.getD ""
    netId := b.netId.getD ""
    major := b.major.getD ""
    graduationYear := b.graduationYear.getD 0
    isMatched := false
    matchedWith := none }

/-- `newUser.save()` throws `E11000` exactly when a stored record already
holds the new record's `email` or `netId` (the two unique indexes). -/
def uniqueViolation (s : Store) (r : Registrant) : Bool :=
  s.any (fun x => x.email = r.email || x.netId = r.netId)

/-- Responses of the `POST /api/users` handler. -/
inductive Response where
  /-- `200 {matched: true, user, match}`. -/
  | okMatched (user : Registrant) (m : Summary)
  /-- `200 {matched: false, user}`. -/
  | okUnmatched (user : Registrant)
  /-- `400 {error: 'Validation error', details}`. -/
  | validationError (details : List String)
  /-- `400 {error: error.message}` from the handler's catch block. -/
  | caughtError (msg : String)
  deriving DecidableEq, Repr

/-- The `user` field of a `POST /api/users` response, when present. -/
def Response.userOf : Response → Option Registrant
  | .okMatched u _ => some u
  | .okUnmatched u => some u
  | _ => none

/-- The `POST /api/users` handler of server.js: idempotent admission by
email, validation, save, then `findMatch`.  `fresh` is the ObjectId minted
for a new document; `storageOk` is threaded to `findMatch`.  Returns the
response and the resulting store. -/
def postUsers (s : Store) (b : Fields) (fresh : Nat) (storageOk : Bool) :
    Response × Store :=
  match findOneByEmailQ s b.email with
  | some existing =>
    if existing.isMatched then
      match findByIdOpt s existing.matchedWith with
      | some m => (.okMatched existing (summaryOf m), s)
      | none =>
        -- `match.name` on a null document throws; the catch returns 400.
        (.caughtError "Cannot read properties of null", s)
    else
      (.okUnmatched existing, s)
  | none =>
    if violatedFields b ≠ [] then
      (.validationError (violatedFields b), s)
    else
      let nu := mkRegistrant fresh b
      if uniqueViolation s nu then
        -- save() threw E11000; the handler's own catch answers 400.
        (.caughtError "E11000 duplicate key error", s)
      else
        let s1 := s ++ [nu]
        match findMatch s1 nu storageOk with
        | (some m, s2) => (.okMatched nu (summaryOf m), s2)
        | (none, s2) => (.okUnmatched nu, s2)

/-- Responses of the `GET /api/users/:id/match` handler. -/
inductive QueryResp where
  /-- `404 {error: 'User not found'}`. -/
  | notFound
  /-- `200 {matched: false}`. -/
  | unmatchedQ
  /-- `200 {matched: true, match}`. -/
  | matchedQ (m : Summary)
  deriving DecidableEq, Repr

/-- The `GET /api/users/:id/match` handler of server.js, with its
self-healing branch for a matched user whose partner record is absent. -/
def getMatch (s : Store) (i : Nat) : QueryResp × Store :=
  match findById s i with
  | none => (.notFound, s)
  | some u =>
    if u.isMatched then
      match findByIdOpt s u.matchedWith with
      | none =>
        let healed := { u with isMatched := false, matchedWith := none }
        (.unmatchedQ, saveUser s healed)
      | some m => (.matchedQ (summaryOf m), s)
    else
      (.unmatchedQ, s)

/-- Two concurrent `findMatch` executions for users `uA` and `uB`
interleaved at the event-loop yield points of server.js: both candidate
selections read the same store snapshot before either two-write commit
runs, then the commits run in order. -/
def interleavedRun (s : Store) (uA uB : Registrant) : Store :=
  match selectCandidate s uA, selectCandidate s uB with
  | some cA, some cB => commitPair (commitPair s uA cA) uB cB
  | some cA, none => commitPair s uA cA
  | none, some cB => commitPair s uB cB
  | none, none => s

/-- The per-record effect of `commitPair s u m` when `u.id ≠ m.id`: the
two successive `findByIdAndUpdate` writes composed into one update. -/
def pairUpd (u m r : Registrant) : Registrant :=
  if r.id = u.id then { r with isMatched := true, matchedWith := some m.id }
  else if r.id = m.id then { r with isMatched := true, matchedWith := some u.id }
  else r

/-- Ids are pairwise distinct across the store. -/
def NodupIds (s : Store) : Prop :=
  (s.map Registrant.id).Nodup

/-- The match relation of the store is symmetric. -/
def SymmetricStore (s : Store) : Prop :=
  ∀ a ∈ s, ∀ b ∈ s, a.matchedWith = some b.id → b.matchedWith = some a.id

/-- Every unmatched record carries a null partner reference
(`isMatched == true ⇔ matchedWith != null`, in its unmatched half). -/
def CleanUnmatched (s : Store) : Prop :=
  ∀ r ∈ s, r.isMatched = false → r.matchedWith = none

end RcssaMatch

namespace RcssaMatch

/-- C1: two interleaved `findMatch` executions, both selecting before
either commits, pair two distinct registrants (ids 2 and 3) with the same
third registrant (id 1): the naive unconditional two-write commit admits
double allocation, violating the no-double-allocation / at-most-one-partner
requirement. -/
theorem findMatch_race_double_allocation :
    (findById (interleavedRun
        [⟨1, "C", "c@x", "n1", "CS", 2025, false, none⟩,
         ⟨2, "A", "a@x", "n2", "CS", 2025, false, none⟩,
         ⟨3, "B", "b@x", "n3", "CS", 2025, false, none⟩]
        ⟨2, "A", "a@x", "n2", "CS", 2025, false, none⟩
        ⟨3, "B", "b@x", "n3", "CS", 2025, false, none⟩) 2).map
        Registrant.matchedWith = some (some 1) ∧
    (findById (interleavedRun
        [⟨1, "C", "c@x", "n1", "CS", 2025, false, none⟩,
         ⟨2, "A", "a@x", "n2", "CS", 2025, false, none⟩,
         ⟨3, "B", "b@x", "n3", "CS", 2025, false, none⟩]
        ⟨2, "A", "a@x", "n2", "CS", 2025, false, none⟩
        ⟨3, "B", "b@x", "n3", "CS", 2025, false, none⟩) 3).map
        Registrant.matchedWith = some (some 1) := by
  decide

/-- C5: on the registration path, an existing matched registrant whose
partner record (id 99) is absent yields the catch-all 400 error (the null
partner is dereferenced), and the store is left unchanged: no self-healing
is performed, contrary to the spec's self-healing rule for this path. -/
theorem register_dangling_partner_errors_without_healing :
    postUsers [⟨1, "D", "d@x", "n1", "CS", 2025, true, some 99⟩]
        ⟨some "D", some "d@x", some "n1", some "CS", some 2025⟩ 7 true =
      (.caughtError "Cannot read properties of null",
       [⟨1, "D", "d@x", "n1", "CS", 2025, true, some 99⟩]) := by
  decide

/-- C7 counterexample: a registration with a fresh email but a `netId`
already stored (a commit-time uniqueness violation on the secondary
identity key) is answered with the handler's 400 catch-all error, not with
a 200 carrying the existing user's match state. -/
theorem netid_conflict_yields_caught_error :
    postUsers [⟨1, "C", "c@x", "n1", "CS", 2025, false, none⟩]
        ⟨some "E", some "e@x", some "n1", some "Math", some 2026⟩ 7 true =
      (.caughtError "E11000 duplicate key error",
       [⟨1, "C", "c@x", "n1", "CS", 2025, false, none⟩]) := by
  decide

/-- C7 amended: only a duplicate email caught by the pre-emptive
`findOne({email})` lookup is answered 200 with the existing user's current
match state (matched with its partner summary when the partner record
exists, unmatched otherwise). -/
theorem duplicate_email_preemptive_returns_current_state
    (s : Store) (b : Fields) (fresh : Nat) (ok : Bool) (ex : Registrant)
    (hex : findOneByEmailQ s b.email = some ex) :
    (ex.isMatched = false → postUsers s b fresh ok = (.okUnmatched ex, s)) ∧
    (∀ m, ex.isMatched = true → findByIdOpt s ex.matchedWith = some m →
      postUsers s b fresh ok = (.okMatched ex (summaryOf m), s)) := by
  constructor
  · intro hm
    simp [postUsers, hex, hm]
  · intro m hm hp
    simp [postUsers, hex, hm, hp]

/-- Witness for the amended C7 theorem at a concrete store and body. -/
theorem duplicate_email_preemptive_returns_current_state_witness :
    postUsers [⟨1, "C", "c@x", "n1", "CS", 2025, false, none⟩]
        ⟨some "C", some "c@x", some "n1", some "CS", some 2025⟩ 7 true =
      (.okUnmatched ⟨1, "C", "c@x", "n1", "CS", 2025, false, none⟩,
       [⟨1, "C", "c@x", "n1", "CS", 2025, false, none⟩]) :=
  (duplicate_email_preemptive_returns_current_state
      [⟨1, "C", "c@x", "n1", "CS", 2025, false, none⟩]
      ⟨some "C", some "c@x", some "n1", some "CS", some 2025⟩ 7 true
      ⟨1, "C", "c@x", "n1", "CS", 2025, false, none⟩ (by decide)).1 (by decide)

/-- C9 counterexample: with an unmatched same-major candidate available,
a storage failure inside `findMatch` makes the registration complete as a
200 `{matched: false, user}` success with the new registrant saved, rather
than failing with a retryable server error. -/
theorem storage_failure_surfaced_as_unmatched_success :
    postUsers [⟨1, "C", "c@x", "n1", "CS", 2025, false, none⟩]
        ⟨some "E", some "e@x", some "n9", some "CS", some 2026⟩ 7 false =
      (.okUnmatched ⟨7, "E", "e@x", "n9", "CS", 2026, false, none⟩,
       [⟨1, "C", "c@x", "n1", "CS", 2025, false, none⟩,
        ⟨7, "E", "e@x", "n9", "CS", 2026, false, none⟩]) := by
  decide

/-- C9 amended: any store failure inside the find-and-commit sequence is
swallowed by `findMatch`'s catch: the request terminates (no hang) with
`{matched: false, user}` and the new registrant stored unmatched; no 500
is produced on this path. -/
theorem storage_failure_in_findMatch_reported_as_unmatched
    (s : Store) (b : Fields) (fresh : Nat)
    (he : findOneByEmailQ s b.email = none)
    (hv : violatedFields b = [])
    (hu : uniqueViolation s (mkRegistrant fresh b) = false) :
    postUsers s b fresh false =
      (.okUnmatched (mkRegistrant fresh b), s ++ [mkRegistrant fresh b]) := by
  simp [postUsers, he, hv, hu, findMatch]

/-- Witness for the amended C9 theorem at a concrete store and body. -/
theorem storage_failure_in_findMatch_reported_as_unmatched_witness :
    postUsers [⟨1, "C", "c@x", "n1", "CS", 2025, false, none⟩]
        ⟨some "F", some "f@x", some "n8", some "CS", some 2026⟩ 9 false =
      (.okUnmatched (mkRegistrant 9
          ⟨some "F", some "f@x", some "n8", some "CS", some 2026⟩),
       [⟨1, "C", "c@x", "n1", "CS", 2025, false, none⟩] ++
         [mkRegistrant 9 ⟨some "F", some "f@x", some "n8", some "CS", some 2026⟩]) :=
  storage_failure_in_findMatch_reported_as_unmatched
    [⟨1, "C", "c@x", "n1", "CS", 2025, false, none⟩]
    ⟨some "F", some "f@x", some "n8", some "CS", some 2026⟩ 9
    (by decide) (by decide) (by decide)

end RcssaMatch

namespace RcssaMatch

theorem pairUpd_id (u m r : Registrant) : (pairUpd u m r).id = r.id := by
  unfold pairUpd
  by_cases h1 : r.id = u.id
  · rw [if_pos h1]
  · rw [if_neg h1]
    by_cases h2 : r.id = m.id
    · rw [if_pos h2]
    · rw [if_neg h2]

theorem pairUpd_email (u m r : Registrant) : (pairUpd u m r).email = r.email := by
  unfold pairUpd
  by_cases h1 : r.id = u.id
  · rw [if_pos h1]
  · rw [if_neg h1]
    by_cases h2 : r.id = m.id
    · rw [if_pos h2]
    · rw [if_neg h2]

theorem commitPair_eq_map (s : Store) (u m : Registrant) (h : m.id ≠ u.id) :
    commitPair s u m = s.map (pairUpd u m) := by
  unfold commitPair findByIdAndUpdateMatch
  rw [List.map_map]
  congr 1
  funext r
  simp only [Function.comp]
  have h2 : ¬u.id = m.id := fun he => h he.symm
  by_cases h1 : r.id = u.id
  · simp [pairUpd, h1, h2]
  · by_cases h3 : r.id = m.id <;> simp [pairUpd, h1, h3, h2, h]

theorem find?_map_pres (t : Registrant → Registrant) (p : Registrant → Bool)
    (h : ∀ r, p (t r) = p r) (l : List Registrant) :
    (l.map t).find? p = (l.find? p).map t := by
  have hpt : (p ∘ t) = p := funext h
  rw [List.find?_map, hpt]

theorem length_filter_map_pres (t : Registrant → Registrant) (p : Registrant → Bool)
    (h : ∀ r, p (t r) = p r) (l : List Registrant) :
    ((l.map t).filter p).length = (l.filter p).length := by
  have hpt : (p ∘ t) = p := funext h
  rw [List.filter_map, hpt, List.length_map]

theorem findById_of_mem_nodup (s : Store) (a : Registrant)
    (hn : NodupIds s) (ha : a ∈ s) : findById s a.id = some a := by
  induction s with
  | nil => cases ha
  | cons hd tl ih =>
    have hn' : (tl.map Registrant.id).Nodup ∧ hd.id ∉ tl.map Registrant.id := by
      unfold NodupIds at hn
      rw [List.map_cons, List.nodup_cons] at hn
      exact ⟨hn.2, hn.1⟩
    rcases List.mem_cons.mp ha with rfl | h
    · unfold findById
      rw [List.find?_cons_of_pos _ (by simp)]
    · by_cases heq : hd.id = a.id
      · exact absurd (heq ▸ List.mem_map.mpr ⟨a, h, rfl⟩) hn'.2
      · unfold findById
        rw [List.find?_cons_of_neg _ (by simp [heq])]
        exact ih hn'.1 h

theorem selectCandidate_some (s : Store) (u c : Registrant)
    (h : selectCandidate s u = some c) :
    c ∈ s ∧ c.id ≠ u.id ∧ c.isMatched = false := by
  unfold selectCandidate at h
  cases hsm : sameMajorQuery s u with
  | some d =>
    rw [hsm] at h
    injection h with h
    subst h
    have hp := List.find?_some hsm
    have hm := List.mem_of_find?_eq_some hsm
    simp only [decide_eq_true_eq, Bool.and_eq_true] at hp
    exact ⟨hm, by simp_all⟩
  | none =>
    rw [hsm] at h
    have hp := List.find?_some h
    have hm := List.mem_of_find?_eq_some h
    simp only [decide_eq_true_eq, Bool.and_eq_true] at hp
    exact ⟨hm, by simp_all⟩

theorem nodupIds_append_singleton (s : Store) (a : Registrant)
    (hn : NodupIds s) (hf : ∀ r ∈ s, r.id ≠ a.id) : NodupIds (s ++ [a]) := by
  unfold NodupIds at hn ⊢
  rw [List.map_append, List.nodup_append]
  refine ⟨hn, by simp, ?_⟩
  intro x hx hy
  rcases List.mem_map.mp hx with ⟨r, hr, rfl⟩
  simp only [List.map_cons, List.map_nil, List.mem_singleton] at hy
  exact hf r hr hy

end RcssaMatch

namespace RcssaMatch

/-- C2: after a successful pairing commit of `findMatch` (the commit step
of `registerAndMatch`), the match relation of the store is symmetric:
whenever `a.matchedWith = b.id`, also `b.matchedWith = a.id`.  Hypotheses:
the pre-commit store has pairwise distinct ids, is symmetric, and its
unmatched records carry null partner references; the matching user is an
unmatched record of the store. -/
theorem findMatch_commit_symmetric (s s' : Store) (u m : Registrant)
    (hn : NodupIds s) (hsym : SymmetricStore s) (hcl : CleanUnmatched s)
    (hu : u ∈ s) (hum : u.isMatched = false)
    (hfm : findMatch s u true = (some m, s')) :
    SymmetricStore s' := by
  unfold findMatch at hfm
  rw [if_pos rfl] at hfm
  cases hsel : selectCandidate s u with
  | none => rw [hsel] at hfm; simp at hfm
  | some c =>
    rw [hsel] at hfm
    rw [Prod.mk.injEq] at hfm
    obtain ⟨hcm, hs'⟩ := hfm
    injection hcm with hcm
    subst hcm
    obtain ⟨hmem, hne, hmu⟩ := selectCandidate_some s u c hsel
    have humw : u.matchedWith = none := hcl u hu hum
    have hmw : c.matchedWith = none := hcl c hmem hmu
    have hinj := List.inj_on_of_nodup_map hn
    rw [← hs', commitPair_eq_map s u c hne]
    unfold SymmetricStore
    intro a' ha' b' hb' hab
    rcases List.mem_map.mp ha' with ⟨a, ha, rfl⟩
    rcases List.mem_map.mp hb' with ⟨b, hb, rfl⟩
    by_cases h1 : a.id = u.id
    · have ha_eq : a = u := hinj ha hu h1
      have hpa : pairUpd u c a = { a with isMatched := true, matchedWith := some c.id } := by
        unfold pairUpd
        rw [if_pos h1]
      have hbid : b.id = c.id := by
        rw [hpa] at hab
        simp only [pairUpd_id, Option.some.injEq] at hab
        exact hab.symm
      have hb_eq : b = c := hinj hb hmem hbid
      have hpb : pairUpd u c b = { b with isMatched := true, matchedWith := some u.id } := by
        unfold pairUpd
        rw [if_neg (show ¬b.id = u.id from by rw [hb_eq]; exact hne), if_pos hbid]
      rw [hpa, hpb]
      simp [h1.symm]
    · by_cases h2 : a.id = c.id
      · have ha_eq : a = c := hinj ha hmem h2
        have hpa : pairUpd u c a = { a with isMatched := true, matchedWith := some u.id } := by
          unfold pairUpd
          rw [if_neg h1, if_pos h2]
        have hbid : b.id = u.id := by
          rw [hpa] at hab
          simp only [pairUpd_id, Option.some.injEq] at hab
          exact hab.symm
        have hpb : pairUpd u c b = { b with isMatched := true, matchedWith := some c.id } := by
          unfold pairUpd
          rw [if_pos hbid]
        rw [hpa, hpb]
        simp [h2.symm]
      · have hpa : pairUpd u c a = a := by
          unfold pairUpd
          rw [if_neg h1, if_neg h2]
        rw [hpa] at hab
        simp only [pairUpd_id] at hab
        have hsymb := hsym a ha b hb hab
        by_cases hb1 : b.id = u.id
        · exact absurd hsymb (by rw [hinj hb hu hb1, humw]; exact fun hx => Option.noConfusion hx)
        · by_cases hb2 : b.id = c.id
          · exact absurd hsymb (by rw [hinj hb hmem hb2, hmw]; exact fun hx => Option.noConfusion hx)
          · have hpb : pairUpd u c b = b := by
              unfold pairUpd
              rw [if_neg hb1, if_neg hb2]
            rw [hpb, hpa]
            exact hsymb

/-- Witness for the C2 symmetry theorem: a concrete store of one unmatched
CS registrant plus a newly admitted CS registrant, matched by `findMatch`. -/
theorem findMatch_commit_symmetric_witness :
    SymmetricStore
      [⟨1, "C", "c@x", "n1", "CS", 2025, true, some 2⟩,
       ⟨2, "A", "a@x", "n2", "CS", 2025, true, some 1⟩] :=
  findMatch_commit_symmetric
    [⟨1, "C", "c@x", "n1", "CS", 2025, false, none⟩,
     ⟨2, "A", "a@x", "n2", "CS", 2025, false, none⟩]
    [⟨1, "C", "c@x", "n1", "CS", 2025, true, some 2⟩,
     ⟨2, "A", "a@x", "n2", "CS", 2025, true, some 1⟩]
    ⟨2, "A", "a@x", "n2", "CS", 2025, false, none⟩
    ⟨1, "C", "c@x", "n1", "CS", 2025, false, none⟩
    (by unfold NodupIds; decide) (by unfold SymmetricStore; decide)
    (by unfold CleanUnmatched; decide) (by decide) (by decide) (by decide)

end RcssaMatch

namespace RcssaMatch

/-- C3: the find-match step only ever selects a stored candidate `c` with
`c.id ≠ u.id` and `c.isMatched = false`, takes a same-major candidate when
one exists, falls back to a different-major candidate only when no
same-major candidate exists; and when no candidate exists at all the new
registrant is retained in the store unmatched with a `{matched: false}`
response. -/
theorem findMatch_candidate_policy (s : Store) (u : Registrant) :
    (∀ c, selectCandidate s u = some c →
      c ∈ s ∧ c.id ≠ u.id ∧ c.isMatched = false ∧
      (∀ d, sameMajorQuery s u = some d → c.major = u.major) ∧
      (c.major ≠ u.major → ∀ d ∈ s, d.id ≠ u.id → d.isMatched = false →
        d.major ≠ u.major)) ∧
    (selectCandidate s u = none →
      findMatch s u true = (none, s) ∧ ∀ d ∈ s, d.id ≠ u.id → d.isMatched = true) ∧
    (∀ (b : Fields) (fresh : Nat),
      findOneByEmailQ s b.email = none → violatedFields b = [] →
      uniqueViolation s (mkRegistrant fresh b) = false →
      selectCandidate (s ++ [mkRegistrant fresh b]) (mkRegistrant fresh b) = none →
      postUsers s b fresh true =
        (.okUnmatched (mkRegistrant fresh b), s ++ [mkRegistrant fresh b]) ∧
      mkRegistrant fresh b ∈ s ++ [mkRegistrant fresh b] ∧
      (mkRegistrant fresh b).isMatched = false) := by
  refine ⟨?_, ?_, ?_⟩
  · intro c hc
    obtain ⟨hmem, hne, hun⟩ := selectCandidate_some s u c hc
    refine ⟨hmem, hne, hun, ?_, ?_⟩
    · intro d hd
      unfold selectCandidate at hc
      rw [hd] at hc
      injection hc with hc
      have hx := List.find?_some hd
      simp only [decide_eq_true_eq] at hx
      exact hc ▸ hx.2.1
    · intro hcm d hd hdne hdun
      cases hsm : sameMajorQuery s u with
      | some x =>
        unfold selectCandidate at hc
        rw [hsm] at hc
        injection hc with hc
        have hx := List.find?_some hsm
        simp only [decide_eq_true_eq] at hx
        exact absurd (hc ▸ hx.2.1) hcm
      | none =>
        have hall := List.find?_eq_none.mp hsm d hd
        simp only [decide_eq_true_eq] at hall
        intro hmaj
        exact hall ⟨hdne, hmaj, hdun⟩
  · intro h
    constructor
    · unfold findMatch
      rw [if_pos rfl, h]
    · have hany : anyUnmatchedQuery s u = none := by
        unfold selectCandidate at h
        cases hsm : sameMajorQuery s u with
        | some x => rw [hsm] at h; exact absurd h (by simp)
        | none => rw [hsm] at h; exact h
      intro d hd hdne
      have hall := List.find?_eq_none.mp hany d hd
      simp only [decide_eq_true_eq] at hall
      cases hdm : d.isMatched with
      | true => rfl
      | false => exact absurd ⟨hdne, hdm⟩ hall
  · intro b fresh he hv hu2 hsel
    refine ⟨?_, List.mem_append.mpr (Or.inr (List.mem_singleton.mpr rfl)), rfl⟩
    simp [postUsers, he, hv, hu2, findMatch, hsel]

/-- Witness for the C3 candidate-policy theorem: a single-registrant CS
store and a newly admitted CS registrant select each other's major. -/
theorem findMatch_candidate_policy_witness :
    (⟨1, "C", "c@x", "n1", "CS", 2025, false, none⟩ : Registrant) ∈
      ([⟨1, "C", "c@x", "n1", "CS", 2025, false, none⟩] : Store) ∧
    (⟨1, "C", "c@x", "n1", "CS", 2025, false, none⟩ : Registrant).major =
      (⟨2, "A", "a@x", "n2", "CS", 2025, false, none⟩ : Registrant).major :=
  ⟨((findMatch_candidate_policy
      [⟨1, "C", "c@x", "n1", "CS", 2025, false, none⟩]
      ⟨2, "A", "a@x", "n2", "CS", 2025, false, none⟩).1
      ⟨1, "C", "c@x", "n1", "CS", 2025, false, none⟩ (by decide)).1,
   ((findMatch_candidate_policy
      [⟨1, "C", "c@x", "n1", "CS", 2025, false, none⟩]
      ⟨2, "A", "a@x", "n2", "CS", 2025, false, none⟩).1
      ⟨1, "C", "c@x", "n1", "CS", 2025, false, none⟩ (by decide)).2.2.2.1
      ⟨1, "C", "c@x", "n1", "CS", 2025, false, none⟩ (by decide)⟩

/-- C6: `queryMatch` answers 404 for an unknown id; self-heals and answers
`{matched: false}` when the registrant is matched but the partner record
is absent (persisting `isMatched = false`, `matchedWith = null`); answers
`{matched: true}` with the partner summary when the partner exists; and
answers `{matched: false}` for an unmatched registrant. -/
theorem queryMatch_spec (s : Store) (i : Nat) :
    (findById s i = none → getMatch s i = (.notFound, s)) ∧
    (∀ u, findById s i = some u → u.isMatched = true →
      findByIdOpt s u.matchedWith = none →
      getMatch s i =
        (.unmatchedQ, saveUser s { u with isMatched := false, matchedWith := none }) ∧
      findById (saveUser s { u with isMatched := false, matchedWith := none }) i =
        some { u with isMatched := false, matchedWith := none }) ∧
    (∀ u m, findById s i = some u → u.isMatched = true →
      findByIdOpt s u.matchedWith = some m →
      getMatch s i = (.matchedQ (summaryOf m), s)) ∧
    (∀ u, findById s i = some u → u.isMatched = false →
      getMatch s i = (.unmatchedQ, s)) := by
  refine ⟨?_, ?_, ?_, ?_⟩
  · intro h
    simp [getMatch, h]
  · intro u hu hm hd
    constructor
    · simp [getMatch, hu, hm, hd]
    · have hui : u.id = i := by
        have := List.find?_some hu
        simpa using this
      unfold saveUser findById
      rw [find?_map_pres _ _ (fun r => ?_) s]
      · unfold findById at hu
        rw [hu]
        simp
      · by_cases hr : r.id = ({ u with isMatched := false, matchedWith := none } : Registrant).id
        · simp only [hr, if_pos rfl]
          simp at hr
          simp [hr, hui]
        · rw [if_neg hr]
  · intro u m hu hm hd
    simp [getMatch, hu, hm, hd]
  · intro u hu hm
    simp [getMatch, hu, hm]

/-- Witness for the C6 queryMatch theorem: Scenario D, a registrant
matched with an absent partner (id 99) is self-healed on query. -/
theorem queryMatch_spec_witness :
    getMatch [⟨1, "D", "d@x", "n1", "CS", 2025, true, some 99⟩] 1 =
      (.unmatchedQ, [⟨1, "D", "d@x", "n1", "CS", 2025, false, none⟩]) ∧
    findById [⟨1, "D", "d@x", "n1", "CS", 2025, false, none⟩] 1 =
      some ⟨1, "D", "d@x", "n1", "CS", 2025, false, none⟩ :=
  (queryMatch_spec [⟨1, "D", "d@x", "n1", "CS", 2025, true, some 99⟩] 1).2.1
    ⟨1, "D", "d@x", "n1", "CS", 2025, true, some 99⟩
    (by decide) (by decide) (by decide)

end RcssaMatch

namespace RcssaMatch

/-- C8: when no existing registrant is found and any required field is
missing or malformed, the handler answers 400 with `details` naming
exactly the violated schema paths, creates no record (the store is
unchanged), and each required field appears in the details precisely when
its `required` validator fails. -/
theorem validation_rejects_and_lists_fields (s : Store) (b : Fields)
    (fresh : Nat) (ok : Bool)
    (he : findOneByEmailQ s b.email = none)
    (hv : violatedFields b ≠ []) :
    postUsers s b fresh ok = (.validationError (violatedFields b), s) ∧
    (("name" ∈ violatedFields b) ↔ strPresent b.name = false) ∧
    (("email" ∈ violatedFields b) ↔ strPresent b.email = false) ∧
    (("netId" ∈ violatedFields b) ↔ strPresent b.netId = false) ∧
    (("major" ∈ violatedFields b) ↔ strPresent b.major = false) ∧
    (("graduationYear" ∈ violatedFields b) ↔ b.graduationYear = none) ∧
    (∀ f ∈ violatedFields b,
      f ∈ ["name", "email", "netId", "major", "graduationYear"]) := by
  constructor
  · simp [postUsers, he, hv]
  · cases h1 : strPresent b.name <;> cases h2 : strPresent b.email <;>
      cases h3 : strPresent b.netId <;> cases h4 : strPresent b.major <;>
      cases h5 : b.graduationYear <;>
      simp [violatedFields, h1, h2, h3, h4, h5]

/-- Witness for the C8 validation theorem: Scenario E, a body missing only
`major` is rejected with `details` naming `major` and no record created. -/
theorem validation_rejects_and_lists_fields_witness :
    postUsers [] ⟨some "N", some "x@x", some "n1", none, some 2025⟩ 5 true =
      (.validationError
        (violatedFields ⟨some "N", some "x@x", some "n1", none, some 2025⟩), []) ∧
    "major" ∈ violatedFields ⟨some "N", some "x@x", some "n1", none, some 2025⟩ :=
  ⟨(validation_rejects_and_lists_fields []
      ⟨some "N", some "x@x", some "n1", none, some 2025⟩ 5 true
      (by decide) (by decide)).1,
   (validation_rejects_and_lists_fields []
      ⟨some "N", some "x@x", some "n1", none, some 2025⟩ 5 true
      (by decide) (by decide)).2.2.2.2.1.mpr (by decide)⟩

/-- C10: on a fresh registration that commits a match, the response is
`{matched: true}` carrying the pre-commit in-memory record (whose
`isMatched` is still false and `matchedWith` still null), while the stored
record with the same id now has `isMatched = true` and `matchedWith` set
to the partner's id. -/
theorem matched_response_user_is_precommit (s : Store) (b : Fields)
    (fresh : Nat) (m : Registrant)
    (he : findOneByEmailQ s b.email = none)
    (hv : violatedFields b = [])
    (hu : uniqueViolation s (mkRegistrant fresh b) = false)
    (hf : ∀ r ∈ s, r.id ≠ fresh)
    (hsel : selectCandidate (s ++ [mkRegistrant fresh b]) (mkRegistrant fresh b) =
      some m) :
    postUsers s b fresh true =
      (.okMatched (mkRegistrant fresh b) (summaryOf m),
        commitPair (s ++ [mkRegistrant fresh b]) (mkRegistrant fresh b) m) ∧
    (mkRegistrant fresh b).isMatched = false ∧
    (mkRegistrant fresh b).matchedWith = none ∧
    findById (commitPair (s ++ [mkRegistrant fresh b]) (mkRegistrant fresh b) m)
        fresh =
      some { mkRegistrant fresh b with isMatched := true, matchedWith := some m.id } := by
  obtain ⟨hmem, hne, hmu⟩ := selectCandidate_some _ _ _ hsel
  refine ⟨?_, rfl, rfl, ?_⟩
  · simp [postUsers, he, hv, hu, findMatch, hsel]
  · rw [commitPair_eq_map _ _ _ hne]
    unfold findById
    rw [find?_map_pres _ _ (fun r => ?_) (s ++ [mkRegistrant fresh b])]
    · rw [List.find?_append]
      have hnone : s.find? (fun r => decide (r.id = fresh)) = none := by
        rw [List.find?_eq_none]
        intro x hx
        simp [hf x hx]
      rw [hnone]
      simp [pairUpd, mkRegistrant]
    · rw [pairUpd_id]

/-- Witness for the C10 pre-commit theorem at a concrete registration that
matches the lone stored CS registrant. -/
theorem matched_response_user_is_precommit_witness :
    postUsers [⟨1, "C", "c@x", "n1", "CS", 2025, false, none⟩]
        ⟨some "E", some "e@x", some "n9", some "CS", some 2026⟩ 7 true =
      (.okMatched
        (mkRegistrant 7 ⟨some "E", some "e@x", some "n9", some "CS", some 2026⟩)
        (summaryOf ⟨1, "C", "c@x", "n1", "CS", 2025, false, none⟩),
        commitPair
          ([⟨1, "C", "c@x", "n1", "CS", 2025, false, none⟩] ++
            [mkRegistrant 7 ⟨some "E", some "e@x", some "n9", some "CS", some 2026⟩])
          (mkRegistrant 7 ⟨some "E", some "e@x", some "n9", some "CS", some 2026⟩)
          ⟨1, "C", "c@x", "n1", "CS", 2025, false, none⟩) ∧
    (mkRegistrant 7 ⟨some "E", some "e@x", some "n9", some "CS", some 2026⟩).isMatched =
      false ∧
    (mkRegistrant 7 ⟨some "E", some "e@x", some "n9", some "CS", some 2026⟩).matchedWith =
      none ∧
    findById
        (commitPair
          ([⟨1, "C", "c@x", "n1", "CS", 2025, false, none⟩] ++
            [mkRegistrant 7 ⟨some "E", some "e@x", some "n9", some "CS", some 2026⟩])
          (mkRegistrant 7 ⟨some "E", some "e@x", some "n9", some "CS", some 2026⟩)
          ⟨1, "C", "c@x", "n1", "CS", 2025, false, none⟩) 7 =
      some { mkRegistrant 7 ⟨some "E", some "e@x", some "n9", some "CS", some 2026⟩ with
              isMatched := true, matchedWith := some 1 } :=
  matched_response_user_is_precommit
    [⟨1, "C", "c@x", "n1", "CS", 2025, false, none⟩]
    ⟨some "E", some "e@x", some "n9", some "CS", some 2026⟩ 7
    ⟨1, "C", "c@x", "n1", "CS", 2025, false, none⟩
    (by decide) (by decide) (by decide) (by decide) (by decide)

end RcssaMatch

namespace RcssaMatch

/-- C4: registering twice with the same email.  The first submission (a
valid body with a fresh email and netId) stores one record with the fresh
id; the second submission of the same body returns a user with the same
id, leaves the store unchanged (no second record, no new match attempt),
keeps exactly one record with that email, and, when the first submission
ended unmatched, answers `{matched: false}` with the same record. -/
theorem register_twice_idempotent (s : Store) (b : Fields) (f1 f2 : Nat)
    (e : String)
    (he : b.email = some e)
    (hv : violatedFields b = [])
    (hu : uniqueViolation s (mkRegistrant f1 b) = false)
    (hn : NodupIds s)
    (hf : ∀ r ∈ s, r.id ≠ f1) :
    ∃ u1 u2,
      (postUsers s b f1 true).1.userOf = some u1 ∧
      (postUsers (postUsers s b f1 true).2 b f2 true).1.userOf = some u2 ∧
      u1.id = f1 ∧ u2.id = f1 ∧
      (postUsers (postUsers s b f1 true).2 b f2 true).2 =
        (postUsers s b f1 true).2 ∧
      ((postUsers s b f1 true).2.filter (fun r => r.email = e)).length = 1 ∧
      ((postUsers s b f1 true).1 = Response.okUnmatched u1 →
        (postUsers (postUsers s b f1 true).2 b f2 true).1 =
          Response.okUnmatched u1) := by
  have hF0 : (mkRegistrant f1 b).email = e := by simp [mkRegistrant, he]
  have hF1 : ∀ r ∈ s, r.email ≠ e := by
    intro r hr
    have := List.any_eq_false.mp hu r hr
    simp only [Bool.or_eq_true, decide_eq_true_eq, not_or] at this
    rw [← hF0]
    exact this.1
  have hF2 : findOneByEmailQ s b.email = none := by
    rw [he]
    unfold findOneByEmailQ
    rw [List.find?_eq_none]
    intro x hx
    simp [hF1 x hx]
  have hfind1 :
      (s ++ [mkRegistrant f1 b]).find? (fun r => decide (r.email = e)) =
        some (mkRegistrant f1 b) := by
    rw [List.find?_append]
    have h0 : s.find? (fun r => decide (r.email = e)) = none := by
      rw [List.find?_eq_none]
      intro x hx
      simp [hF1 x hx]
    rw [h0]
    simp [hF0]
  have hfilter1 :
      ((s ++ [mkRegistrant f1 b]).filter (fun r => decide (r.email = e))).length
        = 1 := by
    rw [List.filter_append]
    have h0 : s.filter (fun r => decide (r.email = e)) = [] := by
      rw [List.filter_eq_nil]
      intro x hx
      simp [hF1 x hx]
    rw [h0]
    simp [hF0]
  cases hsel : selectCandidate (s ++ [mkRegistrant f1 b]) (mkRegistrant f1 b) with
  | none =>
    have hpost1 : postUsers s b f1 true =
        (.okUnmatched (mkRegistrant f1 b), s ++ [mkRegistrant f1 b]) := by
      simp [postUsers, hF2, hv, hu, findMatch, hsel]
    have hfind2 : findOneByEmailQ (s ++ [mkRegistrant f1 b]) b.email =
        some (mkRegistrant f1 b) := by
      rw [he]
      exact hfind1
    have hpost2 : postUsers (s ++ [mkRegistrant f1 b]) b f2 true =
        (.okUnmatched (mkRegistrant f1 b), s ++ [mkRegistrant f1 b]) := by
      simp [postUsers, hfind2,
        show (mkRegistrant f1 b).isMatched = false from rfl]
    refine ⟨mkRegistrant f1 b, mkRegistrant f1 b, ?_, ?_, rfl, rfl, ?_, ?_, ?_⟩
    · simp only [hpost1]
      rfl
    · simp only [hpost1, hpost2]
      rfl
    · simp only [hpost1, hpost2]
    · simp only [hpost1]
      exact hfilter1
    · intro hcon
      simp only [hpost1, hpost2]
  | some m =>
    obtain ⟨hmem, hne, hmu⟩ :=
      selectCandidate_some (s ++ [mkRegistrant f1 b]) (mkRegistrant f1 b) m hsel
    have hn1 : NodupIds (s ++ [mkRegistrant f1 b]) :=
      nodupIds_append_singleton s (mkRegistrant f1 b) hn hf
    have hcm : commitPair (s ++ [mkRegistrant f1 b]) (mkRegistrant f1 b) m =
        (s ++ [mkRegistrant f1 b]).map (pairUpd (mkRegistrant f1 b) m) :=
      commitPair_eq_map _ _ _ hne
    have hpost1 : postUsers s b f1 true =
        (.okMatched (mkRegistrant f1 b) (summaryOf m),
          commitPair (s ++ [mkRegistrant f1 b]) (mkRegistrant f1 b) m) := by
      simp [postUsers, hF2, hv, hu, findMatch, hsel]
    have htnu : pairUpd (mkRegistrant f1 b) m (mkRegistrant f1 b) =
        { mkRegistrant f1 b with isMatched := true, matchedWith := some m.id } := by
      unfold pairUpd
      rw [if_pos rfl]
    have htm : pairUpd (mkRegistrant f1 b) m m =
        { m with isMatched := true, matchedWith := some (mkRegistrant f1 b).id } := by
      unfold pairUpd
      rw [if_neg hne, if_pos rfl]
    have hfind2 :
        findOneByEmailQ
          (commitPair (s ++ [mkRegistrant f1 b]) (mkRegistrant f1 b) m) b.email =
          some { mkRegistrant f1 b with
                  isMatched := true, matchedWith := some m.id } := by
      rw [he]
      simp only [findOneByEmailQ]
      rw [hcm, find?_map_pres _ _ (fun r => by rw [pairUpd_email]) _, hfind1]
      simp [htnu]
    have hpartner :
        findById (commitPair (s ++ [mkRegistrant f1 b]) (mkRegistrant f1 b) m)
          m.id =
          some { m with isMatched := true, matchedWith := some (mkRegistrant f1 b).id } := by
      have hm1 : findById (s ++ [mkRegistrant f1 b]) m.id = some m :=
        findById_of_mem_nodup _ m hn1 hmem
      unfold findById
      rw [hcm, find?_map_pres _ _ (fun r => by rw [pairUpd_id]) _]
      unfold findById at hm1
      rw [hm1]
      simp [htm]
    have hpost2 : postUsers
        (commitPair (s ++ [mkRegistrant f1 b]) (mkRegistrant f1 b) m) b f2 true =
        (.okMatched
          { mkRegistrant f1 b with isMatched := true, matchedWith := some m.id }
          (summaryOf
            { m with isMatched := true, matchedWith := some (mkRegistrant f1 b).id }),
          commitPair (s ++ [mkRegistrant f1 b]) (mkRegistrant f1 b) m) := by
      simp [postUsers, hfind2, findByIdOpt, hpartner]
    have hfilter2 :
        ((commitPair (s ++ [mkRegistrant f1 b]) (mkRegistrant f1 b) m).filter
          (fun r => decide (r.email = e))).length = 1 := by
      rw [hcm, length_filter_map_pres _ _ (fun r => by rw [pairUpd_email]) _]
      exact hfilter1
    refine ⟨mkRegistrant f1 b,
      { mkRegistrant f1 b with isMatched := true, matchedWith := some m.id },
      ?_, ?_, rfl, rfl, ?_, ?_, ?_⟩
    · simp only [hpost1]
      rfl
    · simp only [hpost1, hpost2]
      rfl
    · simp only [hpost1, hpost2]
    · simp only [hpost1]
      exact hfilter2
    · intro hcon
      rw [hpost1] at hcon
      exact absurd hcon (by simp)

/-- Witness for the C4 idempotent-re-registration theorem: a fresh valid
registration against a store holding one other registrant. -/
theorem register_twice_idempotent_witness :
    ∃ u1 u2,
      (postUsers [⟨1, "C", "c@x", "n1", "CS", 2025, false, none⟩]
          ⟨some "E", some "e@x", some "n9", some "CS", some 2026⟩ 7 true).1.userOf =
        some u1 ∧
      (postUsers
          (postUsers [⟨1, "C", "c@x", "n1", "CS", 2025, false, none⟩]
            ⟨some "E", some "e@x", some "n9", some "CS", some 2026⟩ 7 true).2
          ⟨some "E", some "e@x", some "n9", some "CS", some 2026⟩ 8 true).1.userOf =
        some u2 ∧
      u1.id = 7 ∧ u2.id = 7 ∧
      (postUsers
          (postUsers [⟨1, "C", "c@x", "n1", "CS", 2025, false, none⟩]
            ⟨some "E", some "e@x", some "n9", some "CS", some 2026⟩ 7 true).2
          ⟨some "E", some "e@x", some "n9", some "CS", some 2026⟩ 8 true).2 =
        (postUsers [⟨1, "C", "c@x", "n1", "CS", 2025, false, none⟩]
          ⟨some "E", some "e@x", some "n9", some "CS", some 2026⟩ 7 true).2 ∧
      ((postUsers [⟨1, "C", "c@x", "n1", "CS", 2025, false, none⟩]
          ⟨some "E", some "e@x", some "n9", some "CS", some 2026⟩ 7 true).2.filter
        (fun r => r.email = "e@x")).length = 1 ∧
      ((postUsers [⟨1, "C", "c@x", "n1", "CS", 2025, false, none⟩]
          ⟨some "E", some "e@x", some "n9", some "CS", some 2026⟩ 7 true).1 =
          Response.okUnmatched u1 →
        (postUsers
            (postUsers [⟨1, "C", "c@x", "n1", "CS", 2025, false, none⟩]
              ⟨some "E", some "e@x", some "n9", some "CS", some 2026⟩ 7 true).2
            ⟨some "E", some "e@x", some "n9", some "CS", some 2026⟩ 8 true).1 =
          Response.okUnmatched u1) :=
  register_twice_idempotent [⟨1, "C", "c@x", "n1", "CS", 2025, false, none⟩]
    ⟨some "E", some "e@x", some "n9", some "CS", some 2026⟩ 7 8 "e@x"
    (by decide) (by decide) (by decide)
    (by unfold NodupIds; decide) (by decide)

end RcssaMatch
